import Mathlib

/-!
Verification development for the SpendShield AI fraud-detection pipeline.

The definitions below are a shallow embedding of the repository sources:
  - `src/app/graph.py`  (LangGraph workflow: extractor, verifier, anomaly
    detector, reporter nodes and the linear graph wiring),
  - `src/app/db.py`     (the ledger query helpers),
  - `src/app/main.py`   (the audit-status computation of `get_audit`),
  - `src/app/live.py`   (the standalone live analyzer with its extraction
    fallback and its simplified anomaly rules).

Monetary amounts, prices and scores are Python floats in the source; they are
modelled as exact rationals.  External effects (the Gemini model calls, the
PostgreSQL queries, the clock) are passed in explicitly as oracle values, and
the fallible calls are modelled with `Except`.
-/

namespace SpendShield

/-- JSON-like evidence values: the `evidence` dict of an anomaly flag holds
strings, numbers and nulls (`graph.py`, `AnomalyFlag.evidence`). -/
inductive Js where
  | str : String → Js
  | num : Rat → Js
  | null : Js
deriving DecidableEq, Repr

/-- One entry of `DocumentData.line_items` (`graph.py` prompts the model for
objects of shape `{item, quantity, unit_price}`). -/
structure LineItem where
  item : String
  quantity : Rat
  unit_price : Rat
deriving DecidableEq, Repr

/-- `DocumentData` TypedDict (`graph.py` lines 26-35). -/
structure DocumentData where
  document_type : String
  vendor_name : String
  vendor_id : Option String
  amount : Rat
  date : String
  line_items : List LineItem
  approval_authority : Option String
  reference_number : String
deriving DecidableEq, Repr

/-- One similar past transaction as built by `verifier_node`
(`graph.py` lines 279-287). -/
structure SimilarTransaction where
  reference_number : String
  date : String
  amount : Rat
  item : String
deriving DecidableEq, Repr

/-- `VerificationResult` TypedDict (`graph.py` lines 38-44). -/
structure VerificationResult where
  vendor_exists : Bool
  vendor_registration_date : Option String
  historical_avg_price : Option Rat
  similar_transactions : List SimilarTransaction
  vendor_risk_score : Rat
deriving DecidableEq, Repr

/-- `AnomalyFlag` TypedDict (`graph.py` lines 47-52); `evidence` is a dict,
modelled as an association list. -/
structure AnomalyFlag where
  flag_type : String
  severity : String
  description : String
  evidence : List (String × Js)
deriving DecidableEq, Repr

/-! ## Ledger model (`src/app/db.py`) -/

/-- A row of the `past_expenditures` table (`db.py` lines 72-87); only the
columns the pipeline reads are modelled.  `transaction_date` is a day number
so that the lookback-window comparison is plain integer order. -/
structure Expenditure where
  reference_number : String
  transaction_date : Int
  amount : Rat
  item_description : String
  quantity : Rat
  unit_price : Rat
deriving DecidableEq, Repr

/-- Case-insensitive substring test: the semantics of the SQL pattern
`item_description ILIKE '%desc%'` used by `Database.get_historical_avg_price`
(`db.py` line 330). -/
def ilikeContains (hay needle : String) : Bool :=
  let h := hay.toLower.toList
  let n := needle.toLower.toList
  (List.range (h.length + 1)).any (fun i => n.isPrefixOf (h.drop i))

/-- The aggregate row returned by `Database.get_historical_avg_price`:
`AVG`, `MIN`, `MAX` are SQL aggregates, hence `NULL` (here `none`) when no
row matches, while `COUNT(*)` is `0` (`db.py` lines 323-333). -/
structure PriceStats where
  avg_price : Option Rat
  min_price : Option Rat
  max_price : Option Rat
  transaction_count : Nat
deriving DecidableEq, Repr

/-- `Database.get_historical_avg_price` (`db.py` lines 319-333): aggregate
unit-price statistics over the expenditures whose `item_description`
contains `desc` case-insensitively and whose `transaction_date` is on or
after the lookback cutoff (`CURRENT_DATE - INTERVAL months`, passed here as
the precomputed day number `cutoff`). -/
def get_historical_avg_price (ledger : List Expenditure) (cutoff : Int)
    (desc : String) : PriceStats :=
  let m := ledger.filter
    (fun r => ilikeContains r.item_description desc && decide (cutoff ≤ r.transaction_date))
  { avg_price := if m.isEmpty then none
      else some ((m.map (fun r => r.unit_price)).sum / (m.length : Rat))
    min_price := (m.map (fun r => r.unit_price)).min?
    max_price := (m.map (fun r => r.unit_price)).max?
    transaction_count := m.length }

/-- The historical-pricing portion of `verifier_node` (`graph.py` lines
264-273): the query is issued only for the description of the FIRST line
item (`line_items[0]`), only when that description is non-empty, and the
result is kept only when the returned `avg_price` is truthy (present and
non-zero, Python `if price_data and price_data.get('avg_price')`). -/
def verifierHistoricalAvg (ledger : List Expenditure) (cutoff : Int)
    (items : List LineItem) : Option Rat :=
  match items with
  | [] => none
  | first :: _ =>
    if first.item = "" then none
    else
      match (get_historical_avg_price ledger cutoff first.item).avg_price with
      | none => none
      | some a => if a = 0 then none else some a

/-! ## Anomaly Engine (`anomaly_detector_node`, `graph.py` lines 344-480) -/

/-- The row of `past_expenditures` returned by
`Database.check_duplicate_reference` when the reference number already
exists (`db.py` lines 347-355); only the fields read by the detector. -/
structure DuplicateRecord where
  transaction_date : String
  amount : Rat
deriving DecidableEq, Repr

/-- The external facts the detector consumes besides its two data inputs:
the duplicate-reference ledger lookup, and the clock used by the
registration-age check (`datetime.now() - reg_date`, expressed in days and
possibly fractional; `timedelta.days` is its floor). -/
structure DetectEnv where
  duplicate : Option DuplicateRecord
  elapsedDays : String → Rat
deriving Inhabited

/-- Rule 1, first branch (`graph.py` lines 364-374): ghost-vendor flag when
the vendor is absent from the ledger.  The source wraps the vendor name in
single quotes inside the description; the quotes are elided here. -/
def ghostVendorFlag (e : DocumentData) : AnomalyFlag :=
  { flag_type := "ghost_vendor"
    severity := "critical"
    description := "Vendor " ++ e.vendor_name ++ " not found in database"
    evidence :=
      [("vendor_name", Js.str e.vendor_name),
       ("vendor_id", match e.vendor_id with | some i => Js.str i | none => Js.null),
       ("amount", Js.num e.amount)] }

/-- Rule 1, second branch (`graph.py` lines 375-389): recently registered
vendor with a large contract.  `d` is the registration-date string and
`elapsed` the clock difference `now - reg_date` in days. -/
def recentVendorFlag (e : DocumentData) (d : String) (elapsed : Rat) : AnomalyFlag :=
  { flag_type := "ghost_vendor"
    severity := "high"
    description := "Recently registered vendor (" ++ d ++ ") with large contract"
    evidence :=
      [("registration_date", Js.str d),
       ("contract_amount", Js.num e.amount),
       ("days_since_registration", Js.num ((⌊elapsed⌋ : Int) : Rat))] }

/-- Rule 1 of the detector (`graph.py` lines 363-389). -/
def rule1GhostVendor (e : DocumentData) (v : VerificationResult)
    (env : DetectEnv) : List AnomalyFlag :=
  if v.vendor_exists = false then [ghostVendorFlag e]
  else
    match v.vendor_registration_date with
    | none => []
    | some d =>
      if d = "" then []
      else if env.elapsedDays d < 180 ∧ e.amount > 50000 then
        [recentVendorFlag e d (env.elapsedDays d)]
      else []

/-- The price-inflation flag built for one qualifying line item
(`graph.py` lines 398-412).  The source renders the percentage to one
decimal place inside the description; the exact rational is rendered here. -/
def inflationFlag (avg : Rat) (it : LineItem) : AnomalyFlag :=
  let pct : Rat := ((it.unit_price - avg) / avg) * 100
  { flag_type := "price_inflation"
    severity := if pct > 50 then "critical" else if pct > 30 then "high" else "medium"
    description := "Price inflation detected: " ++ toString pct
      ++ "% above historical average"
    evidence :=
      [("item", Js.str it.item),
       ("current_price", Js.num it.unit_price),
       ("historical_avg_price", Js.num avg),
       ("inflation_percentage", Js.num pct)] }

/-- Rule 2 of the detector (`graph.py` lines 391-412): guarded by the
truthiness of `historical_avg_price` (present and non-zero) and of
`line_items` (non-empty); each line item whose unit price exceeds the
historical average by more than 20 percent yields its own flag. -/
def rule2PriceInflation (e : DocumentData) (v : VerificationResult) : List AnomalyFlag :=
  match v.historical_avg_price with
  | none => []
  | some avg =>
    if avg = 0 then []
    else if e.line_items.isEmpty then []
    else e.line_items.filterMap
      (fun it => if it.unit_price > avg * (12/10) then some (inflationFlag avg it) else none)

/-- Rule 3 of the detector (`graph.py` lines 414-428): duplicate reference
number, guarded by the truthiness of `reference_number`. -/
def rule3Duplicate (e : DocumentData) (env : DetectEnv) : List AnomalyFlag :=
  if e.reference_number = "" then []
  else
    match env.duplicate with
    | none => []
    | some dup =>
      [{ flag_type := "duplicate_invoice"
         severity := "critical"
         description := "Duplicate reference number found: " ++ e.reference_number
         evidence :=
           [("reference_number", Js.str e.reference_number),
            ("original_date", Js.str dup.transaction_date),
            ("original_amount", Js.num dup.amount)] }]

/-- The high-risk-vendor flag (`graph.py` lines 432-440).  The source
renders the score to two decimals in the description. -/
def highRiskFlag (e : DocumentData) (v : VerificationResult) : AnomalyFlag :=
  { flag_type := "high_risk_vendor"
    severity := "high"
    description := "Vendor has high risk score: " ++ toString v.vendor_risk_score
    evidence :=
      [("vendor_name", Js.str e.vendor_name),
       ("risk_score", Js.num v.vendor_risk_score)] }

/-- Rule 4 of the detector (`graph.py` lines 430-440): high vendor risk
score. -/
def rule4HighRisk (e : DocumentData) (v : VerificationResult) : List AnomalyFlag :=
  if v.vendor_risk_score > 7/10 then [highRiskFlag e v] else []

/-- The full rule set of `anomaly_detector_node` (`graph.py` lines 358-440),
in source order: the `anomalies` list accumulated by the four rules. -/
def detect (e : DocumentData) (v : VerificationResult) (env : DetectEnv) :
    List AnomalyFlag :=
  rule1GhostVendor e v env ++ rule2PriceInflation e v
    ++ rule3Duplicate e env ++ rule4HighRisk e v

/-! ## Risk Scorer (`reporter_node`, `graph.py` lines 495-539) -/

/-- Severity weight of one anomaly (`graph.py` lines 498-507): the
if/elif chain adds 40/25/15/5 for critical/high/medium/low and nothing for
any other severity string. -/
def severityWeight (s : String) : Rat :=
  if s = "critical" then 40
  else if s = "high" then 25
  else if s = "medium" then 15
  else if s = "low" then 5
  else 0

/-- The base score: the sum of severity weights over the anomaly list
(`graph.py` lines 496-507). -/
def baseScore (anomalies : List AnomalyFlag) : Rat :=
  anomalies.foldl (fun acc a => acc + severityWeight a.severity) 0

/-- `fraud_risk_score` (`graph.py` lines 509-514): the base score,
multiplied by 1.5 when the vendor risk score exceeds 0.7 (risk read from
the verification result, 0.0 when it is absent), then clamped above by 100. -/
def fraudRiskScore (anomalies : List AnomalyFlag)
    (verification : Option VerificationResult) : Rat :=
  let base := baseScore anomalies
  let vendorRisk := match verification with
    | some v => v.vendor_risk_score
    | none => 0
  let amplified := if vendorRisk > 7/10 then base * (3/2) else base
  min amplified 100

/-- The discrete risk level (`live.py` lines 457-466, `calculate_risk_level`;
`graph.py` line 539 uses the same thresholds with an emoji marker prefixed
to each label). -/
def calculate_risk_level (score : Rat) : String :=
  if score ≥ 70 then "CRITICAL"
  else if score ≥ 40 then "HIGH"
  else if score ≥ 20 then "MEDIUM"
  else "LOW"

/-! ## Audit state and pipeline orchestration

`AuditState` is the LangGraph channel state (`graph.py` lines 55-81).  The
`final_report` markdown text is pure templating of already-computed fields
and is not modelled; `processing_time` is written only by the caller.  Each
node returns a full update dict built as a spread of the incoming state with
its own outputs overridden; LangGraph folds that update into the channel
state, appending on the two `add`-annotated list channels. -/

structure AuditState where
  document_path : String
  thread_id : String
  extracted_data : Option DocumentData
  extraction_reasoning : String
  verification_result : Option VerificationResult
  verification_reasoning : String
  anomalies : List AnomalyFlag
  anomaly_reasoning : String
  fraud_risk_score : Rat
  recommendations : List String
  current_node : String
  errors : List String
deriving Repr

/-- LangGraph merge of a node's returned update into the channel state: the
`errors` and `anomalies` channels carry the `add` reducer
(`graph.py` lines 70 and 80), so the returned list is concatenated onto the
existing one; every other channel takes the returned value. -/
def mergeUpdate (s upd : AuditState) : AuditState :=
  { upd with
    anomalies := s.anomalies ++ upd.anomalies
    errors := s.errors ++ upd.errors }

/-- `extractor_node` (`graph.py` lines 86-232).  The Gemini call and the
JSON parsing of its response are external and fallible: `outcome` is either
the parsed `(extracted_data, reasoning)` pair or the exception text.  On
success the node returns the spread state with `extracted_data`,
`extraction_reasoning` and `current_node` overridden (lines 219-224); on
failure it overrides `errors` with the single descriptive string and
`current_node` (lines 226-232). -/
def extractorNode (outcome : Except String (DocumentData × String))
    (s : AuditState) : AuditState :=
  mergeUpdate s <|
    match outcome with
    | .ok (d, reasoning) =>
      { s with extracted_data := some d
               extraction_reasoning := reasoning
               current_node := "extractor" }
    | .error msg =>
      { s with errors := ["Extraction error: " ++ msg]
               current_node := "extractor" }

/-- `verifier_node` (`graph.py` lines 235-341).  When no extracted data is
available the node raises internally (line 245); otherwise the ledger
lookups and the Gemini reasoning call either produce the verification
result with its reasoning text or raise (`outcome`). -/
def verifierNode (outcome : Except String (VerificationResult × String))
    (s : AuditState) : AuditState :=
  mergeUpdate s <|
    match s.extracted_data with
    | none =>
      { s with errors := ["Verification error: No extracted data available"]
               current_node := "verifier" }
    | some _ =>
      match outcome with
      | .ok (v, reasoning) =>
        { s with verification_result := some v
                 verification_reasoning := reasoning
                 current_node := "verifier" }
      | .error msg =>
        { s with errors := ["Verification error: " ++ msg]
                 current_node := "verifier" }

/-- `anomaly_detector_node` (`graph.py` lines 344-480).  When either input
is missing the node raises internally (line 356); otherwise the duplicate
lookup, the clock and the Gemini reasoning call are supplied by `outcome`,
and the anomalies channel update is the freshly built rule output `detect`
(line 469 overrides `anomalies` with the new list, which LangGraph then
appends to the accumulated channel). -/
def anomalyDetectorNode (outcome : Except String (DetectEnv × String))
    (s : AuditState) : AuditState :=
  mergeUpdate s <|
    match s.extracted_data, s.verification_result with
    | some e, some v =>
      (match outcome with
       | .ok (env, reasoning) =>
         { s with anomalies := detect e v env
                  anomaly_reasoning := reasoning
                  current_node := "anomaly_detector" }
       | .error msg =>
         { s with errors := ["Anomaly detection error: " ++ msg]
                  current_node := "anomaly_detector" })
    | _, _ =>
      { s with errors := ["Anomaly detection error: Missing required data for anomaly detection"]
               current_node := "anomaly_detector" }

/-- `reporter_node` (`graph.py` lines 483-656).  The score is computed from
the accumulated anomalies and the verification result (lines 495-514); the
Gemini recommendations call (`recsOutcome`, line 534) runs before the report
templating, which dereferences `extracted_data` and `verification_result`
and raises `AttributeError` on `None` (lines 547 and 569; the quoting of the
Python message is elided here); the flag persistence (`saveOutcome`, lines
627-638) runs last.  Any raise lands in the handler of lines 650-656,
leaving every reporter output unset. -/
def reporterNode (recsOutcome : Except String (List String))
    (saveOutcome : Except String Unit) (s : AuditState) : AuditState :=
  mergeUpdate s <|
    match recsOutcome with
    | .error msg =>
      { s with errors := ["Report generation error: " ++ msg]
               current_node := "reporter" }
    | .ok recs =>
      match s.extracted_data, s.verification_result with
      | some _, some _ =>
        (match saveOutcome with
         | .ok _ =>
           { s with fraud_risk_score := fraudRiskScore s.anomalies s.verification_result
                    recommendations := recs
                    current_node := "reporter" }
         | .error msg =>
           { s with errors := ["Report generation error: " ++ msg]
                    current_node := "reporter" })
      | _, _ =>
        { s with errors := ["Report generation error: NoneType object has no attribute get"]
                 current_node := "reporter" }

/-- The external outcomes of one run, one per fallible operation. -/
structure Oracles where
  extraction : Except String (DocumentData × String)
  verification : Except String (VerificationResult × String)
  detection : Except String (DetectEnv × String)
  recommendations : Except String (List String)
  persistence : Except String Unit

/-- The compiled workflow (`create_fraud_detection_graph`, `graph.py` lines
660-678): a linear graph extractor → verifier → anomaly_detector → reporter
→ END with unconditional edges, so every stage runs exactly once in order
regardless of earlier failures. -/
def pipeline (o : Oracles) (s0 : AuditState) : AuditState :=
  reporterNode o.recommendations o.persistence
    (anomalyDetectorNode o.detection
      (verifierNode o.verification
        (extractorNode o.extraction s0)))

/-- The terminal status computed by `get_audit` (`main.py` lines 252-258):
`completed` when the last executed node is the reporter, otherwise `failed`
when the error list is non-empty (Python truthiness), otherwise
`processing`. -/
def auditStatus (s : AuditState) : String :=
  if s.current_node = "reporter" then "completed"
  else if s.errors.isEmpty then "processing"
  else "failed"

/-! ## Live analyzer (`src/app/live.py`) -/

/-- One entry of the `items` array of the live extraction schema
(`live.py` lines 358-365). -/
structure LiveItem where
  description : String
  quantity : Rat
  unit_price : Rat
  total : Rat
deriving DecidableEq, Repr

/-- The JSON object handled by the live analyzer (`live.py` extraction
schema lines 352-367 and `create_fallback_data` lines 408-417); only the
keys the analyzer reads are modelled, each optional as in the prompt. -/
structure LiveExtracted where
  vendor_name : Option String
  vendor_id : Option String
  invoice_number : Option String
  total_amount : Option Rat
  items : List LiveItem
  currency : Option String
deriving DecidableEq, Repr

/-- `create_fallback_data` (`live.py` lines 408-417): the placeholder
record substituted when extraction output cannot be parsed. -/
def create_fallback_data : LiveExtracted :=
  { vendor_name := some "Extracted Vendor"
    vendor_id := none
    invoice_number := some "EXT-001"
    total_amount := some 10000
    items := [{ description := "Extracted Item", quantity := 1,
                unit_price := 10000, total := 10000 }]
    currency := some "USD" }

/-- Python truthiness of an optional string field (`None` and the empty
string are falsy). -/
def strFalsy (o : Option String) : Bool :=
  match o with
  | none => true
  | some s => s = ""

/-- `detect_anomalies` of the live analyzer (`live.py` lines 419-455):
three additive checks returning the flag list and the accumulated score. -/
def live_detect_anomalies (x : LiveExtracted) : List AnomalyFlag × Rat :=
  let amt := x.total_amount.getD 0
  let highValue : List AnomalyFlag :=
    if amt > 25000 then
      [{ flag_type := "high_value", severity := "MEDIUM"
         description := "High value transaction: " ++ toString amt
         evidence := [("amount", Js.num amt)] }]
    else []
  let score1 : Rat := if amt > 25000 then 20 else 0
  let missingVendor : List AnomalyFlag :=
    if strFalsy x.vendor_id then
      [{ flag_type := "missing_vendor_id", severity := "HIGH"
         description := "Vendor ID not found in document"
         evidence := [("vendor_name",
           match x.vendor_name with | some s => Js.str s | none => Js.null)] }]
    else []
  let score2 : Rat := score1 + (if strFalsy x.vendor_id then 30 else 0)
  let missingInvoice : List AnomalyFlag :=
    if strFalsy x.invoice_number then
      [{ flag_type := "missing_invoice_number", severity := "HIGH"
         description := "Invoice number not found"
         evidence := [] }]
    else []
  let score3 : Rat := score2 + (if strFalsy x.invoice_number then 25 else 0)
  (highValue ++ missingVendor ++ missingInvoice, score3)

/-- `generate_recommendations` (`live.py` lines 468-491); the emoji markers
prefixed to each recommendation are elided. -/
def generate_recommendations (anomalies : List AnomalyFlag) (score : Rat) :
    List String :=
  let band :=
    if score ≥ 70 then ["REJECT transaction immediately", "Launch full investigation"]
    else if score ≥ 40 then ["Hold payment pending review", "Request additional documentation"]
    else []
  let withVendor := band ++
    (if anomalies.any (fun a => a.flag_type == "missing_vendor_id") then
       ["Verify vendor registration and credentials"]
     else [])
  let withValue := withVendor ++
    (if anomalies.any (fun a => a.flag_type == "high_value") then
       ["Require additional approval from senior management"]
     else [])
  let withDefault :=
    if withValue.isEmpty then
      withValue ++ ["Transaction appears normal - proceed with standard approval"]
    else withValue
  withDefault ++ ["Cross-check with procurement records"]

/-- The analysis record returned by `process_image_with_ai`
(`live.py` lines 392-402).  It has no error field. -/
structure LiveResult where
  thread_id : String
  status : String
  fraud_risk_score : Rat
  risk_level : String
  anomalies : List AnomalyFlag
  final_report : String
  recommendations : List String
  extracted_data : LiveExtracted
  processing_time : Rat
deriving DecidableEq, Repr

/-- The tail of `process_image_with_ai` (`live.py` lines 376-402): `parsed`
is the JSON object decoded from the model response, `none` when no JSON
object was found or decoding raised (lines 377-385); in that case
`create_fallback_data` is substituted with only a log warning, and the
analysis proceeds and returns status `completed`. -/
def process_image_result (parsed : Option LiveExtracted) (thread : String) :
    LiveResult :=
  let extracted := parsed.getD create_fallback_data
  let (anomalies, score) := live_detect_anomalies extracted
  { thread_id := thread
    status := "completed"
    fraud_risk_score := score
    risk_level := calculate_risk_level score
    anomalies := anomalies
    final_report := "AI Analysis completed. Risk Score: " ++ toString score
      ++ "/100. " ++ toString anomalies.length ++ " anomalies detected."
    recommendations := generate_recommendations anomalies score
    extracted_data := extracted
    processing_time := 0 }

/-! ## Sample concrete inputs used by witnesses and counterexamples -/

/-- A detection environment with no duplicate and a constant clock. -/
def emptyEnv : DetectEnv := { duplicate := none, elapsedDays := fun _ => 0 }

/-- Scenario A line item: Office supplies at unit price 50.00. -/
def officeItem : LineItem :=
  { item := "Office supplies", quantity := 1000, unit_price := 50 }

/-- Scenario A document: one line item at unit price 50.00. -/
def docA : DocumentData :=
  { document_type := "invoice"
    vendor_name := "QuickFix Solutions Ltd"
    vendor_id := some "VND005"
    amount := 50000
    date := "2024-01-15"
    line_items := [officeItem]
    approval_authority := none
    reference_number := "INV-2024-500" }

/-- Scenario A verification: vendor known, historical average 40.00, no risk. -/
def verA : VerificationResult :=
  { vendor_exists := true
    vendor_registration_date := none
    historical_avg_price := some 40
    similar_transactions := []
    vendor_risk_score := 0 }

/-! ## Helper lemmas -/

theorem severityWeight_nonneg (s : String) : 0 ≤ severityWeight s := by
  unfold severityWeight
  split_ifs <;> norm_num

theorem baseScore_foldl_nonneg (l : List AnomalyFlag) (acc : Rat) (h : 0 ≤ acc) :
    0 ≤ l.foldl (fun acc a => acc + severityWeight a.severity) acc := by
  induction l generalizing acc with
  | nil => simpa using h
  | cons a t ih =>
    simp only [List.foldl_cons]
    exact ih _ (add_nonneg h (severityWeight_nonneg a.severity))

theorem baseScore_nonneg (l : List AnomalyFlag) : 0 ≤ baseScore l :=
  baseScore_foldl_nonneg l 0 le_rfl

/-! ## Claims -/

/-- C1: for every list of anomaly flags and every vendor risk score, the
`fraud_risk_score` computed by the reporter stage lies in [0, 100]: the sum
of the severity weights, optionally multiplied by 1.5, clamped above by
100, and never negative. -/
theorem C1_fraud_risk_score_in_range (anomalies : List AnomalyFlag)
    (verification : Option VerificationResult) :
    0 ≤ fraudRiskScore anomalies verification
      ∧ fraudRiskScore anomalies verification ≤ 100 := by
  unfold fraudRiskScore
  refine ⟨le_min ?_ (by norm_num), min_le_right _ _⟩
  have hb := baseScore_nonneg anomalies
  split_ifs <;> nlinarith

/-- C3 counterexample: on the Scenario A input (unit price 50.00 against a
historical average of 40.00) the detector computes 25 percent inflation but
emits a flag of severity `medium`, not `high`, and the flag contributes 15
points to the base score, not 25. -/
theorem C3_counterexample :
    detect docA verA emptyEnv = [inflationFlag 40 officeItem]
      ∧ (inflationFlag 40 officeItem).evidence.lookup "inflation_percentage"
          = some (Js.num 25)
      ∧ (inflationFlag 40 officeItem).severity = "medium"
      ∧ ¬ (inflationFlag 40 officeItem).severity = "high"
      ∧ baseScore (detect docA verA emptyEnv) = 15
      ∧ ¬ baseScore (detect docA verA emptyEnv) = 25 := by
  with_unfolding_all decide

/-- C3 amended: for the input where a line item has unit price 50.00 and
the known historical average price is 40.00, the anomaly detector computes
25 percent inflation and emits a `price_inflation` flag of severity
`medium`, which contributes 15 points to the base score in the risk
scorer. -/
theorem C3_scenario_a_medium_severity :
    detect docA verA emptyEnv = [inflationFlag 40 officeItem]
      ∧ (inflationFlag 40 officeItem).flag_type = "price_inflation"
      ∧ (inflationFlag 40 officeItem).evidence.lookup "inflation_percentage"
          = some (Js.num 25)
      ∧ (inflationFlag 40 officeItem).severity = "medium"
      ∧ baseScore (detect docA verA emptyEnv) = 15
      ∧ fraudRiskScore (detect docA verA emptyEnv) (some verA) = 15 := by
  with_unfolding_all decide

/-- Verification result for an unknown vendor with no further findings. -/
def verGhost : VerificationResult :=
  { vendor_exists := false
    vendor_registration_date := none
    historical_avg_price := none
    similar_transactions := []
    vendor_risk_score := 0 }

theorem rule1_severity (e : DocumentData) (v : VerificationResult) (env : DetectEnv) :
    ∀ f ∈ rule1GhostVendor e v env, f.severity = "critical" ∨ f.severity = "high" := by
  intro f hf
  unfold rule1GhostVendor at hf
  split at hf
  · simp only [List.mem_singleton] at hf
    subst hf
    exact Or.inl rfl
  · split at hf
    · simp at hf
    · split at hf
      · simp at hf
      · split at hf
        · simp only [List.mem_singleton] at hf
          subst hf
          exact Or.inr rfl
        · simp at hf

theorem rule2_severity (e : DocumentData) (v : VerificationResult) :
    ∀ f ∈ rule2PriceInflation e v,
      f.severity = "critical" ∨ f.severity = "high" ∨ f.severity = "medium" := by
  intro f hf
  unfold rule2PriceInflation at hf
  split at hf
  · simp at hf
  · split at hf
    · simp at hf
    · split at hf
      · simp at hf
      · rw [List.mem_filterMap] at hf
        obtain ⟨it, -, hit⟩ := hf
        split at hit
        · obtain rfl := Option.some.inj hit
          dsimp only [inflationFlag]
          split_ifs with h1 h2
          · exact Or.inl rfl
          · exact Or.inr (Or.inl rfl)
          · exact Or.inr (Or.inr rfl)
        · simp at hit

theorem rule3_severity (e : DocumentData) (env : DetectEnv) :
    ∀ f ∈ rule3Duplicate e env, f.severity = "critical" := by
  intro f hf
  unfold rule3Duplicate at hf
  split at hf
  · simp at hf
  · split at hf
    · simp at hf
    · simp only [List.mem_singleton] at hf
      subst hf
      rfl

theorem rule4_severity (e : DocumentData) (v : VerificationResult) :
    ∀ f ∈ rule4HighRisk e v, f.severity = "high" := by
  intro f hf
  unfold rule4HighRisk at hf
  split at hf
  · simp only [List.mem_singleton] at hf
    subst hf
    rfl
  · simp at hf

theorem rule1_flag_type (e : DocumentData) (v : VerificationResult) (env : DetectEnv) :
    ∀ f ∈ rule1GhostVendor e v env, f.flag_type = "ghost_vendor" := by
  intro f hf
  unfold rule1GhostVendor at hf
  split at hf
  · simp only [List.mem_singleton] at hf
    subst hf
    rfl
  · split at hf
    · simp at hf
    · split at hf
      · simp at hf
      · split at hf
        · simp only [List.mem_singleton] at hf
          subst hf
          rfl
        · simp at hf

theorem rule3_flag_type (e : DocumentData) (env : DetectEnv) :
    ∀ f ∈ rule3Duplicate e env, f.flag_type = "duplicate_invoice" := by
  intro f hf
  unfold rule3Duplicate at hf
  split at hf
  · simp at hf
  · split at hf
    · simp at hf
    · simp only [List.mem_singleton] at hf
      subst hf
      rfl

theorem rule4_flag_type (e : DocumentData) (v : VerificationResult) :
    ∀ f ∈ rule4HighRisk e v, f.flag_type = "high_risk_vendor" := by
  intro f hf
  unfold rule4HighRisk at hf
  split at hf
  · simp only [List.mem_singleton] at hf
    subst hf
    rfl
  · simp at hf

/-- C10: every anomaly flag produced by the detector has severity
`critical`, `high` or `medium`; no rule ever emits severity `low`, so the
low-severity +5 branch of the risk scorer is unreachable for flags produced
by this engine. -/
theorem C10_no_low_severity (e : DocumentData) (v : VerificationResult)
    (env : DetectEnv) (f : AnomalyFlag) (hf : f ∈ detect e v env) :
    (f.severity = "critical" ∨ f.severity = "high" ∨ f.severity = "medium")
      ∧ f.severity ≠ "low" ∧ severityWeight f.severity ≠ 5 := by
  have hs : f.severity = "critical" ∨ f.severity = "high" ∨ f.severity = "medium" := by
    simp only [detect, List.mem_append] at hf
    rcases hf with ((h | h) | h) | h
    · rcases rule1_severity e v env f h with h1 | h1
      · exact Or.inl h1
      · exact Or.inr (Or.inl h1)
    · exact rule2_severity e v f h
    · exact Or.inl (rule3_severity e env f h)
    · exact Or.inr (Or.inl (rule4_severity e v f h))
  refine ⟨hs, ?_, ?_⟩ <;> rcases hs with h | h | h <;> rw [h] <;>
    with_unfolding_all decide

/-- C10 witness: the ghost-vendor flag emitted for the Scenario A document
against an unknown vendor. -/
theorem C10_no_low_severity_witness :
    ((ghostVendorFlag docA).severity = "critical"
        ∨ (ghostVendorFlag docA).severity = "high"
        ∨ (ghostVendorFlag docA).severity = "medium")
      ∧ (ghostVendorFlag docA).severity ≠ "low"
      ∧ severityWeight (ghostVendorFlag docA).severity ≠ 5 :=
  C10_no_low_severity docA verGhost emptyEnv (ghostVendorFlag docA)
    (by
      have h : detect docA verGhost emptyEnv = [ghostVendorFlag docA] := by
        norm_num [detect, rule1GhostVendor, rule2PriceInflation, rule3Duplicate,
          rule4HighRisk, verGhost, emptyEnv, docA]
      rw [h]
      exact List.mem_singleton_self _)

theorem filterMap_ite_eq_map_filter {α β : Type} (p : α → Prop) [DecidablePred p]
    (f : α → β) (l : List α) :
    l.filterMap (fun x => if p x then some (f x) else none)
      = (l.filter (fun x => decide (p x))).map f := by
  induction l with
  | nil => rfl
  | cons a t ih =>
    by_cases h : p a <;>
      simp [List.filterMap_cons, List.filter_cons, h, ih]

theorem rule2_eq_map (e : DocumentData) (v : VerificationResult) (a : Rat)
    (hk : v.historical_avg_price = some a) (h0 : a ≠ 0) :
    rule2PriceInflation e v
      = (e.line_items.filter
          (fun it => decide (it.unit_price > a * (12/10)))).map (inflationFlag a) := by
  unfold rule2PriceInflation
  rw [hk]
  dsimp only
  rw [if_neg h0]
  by_cases he : e.line_items.isEmpty
  · rw [if_pos he]
    rw [List.isEmpty_iff.mp he]
    rfl
  · rw [if_neg he]
    exact filterMap_ite_eq_map_filter _ _ _

theorem rule1_no_price (e : DocumentData) (v : VerificationResult) (env : DetectEnv) :
    (rule1GhostVendor e v env).filter (fun f => f.flag_type == "price_inflation") = [] := by
  unfold rule1GhostVendor
  split
  · simp [ghostVendorFlag]
  · split
    · rfl
    · split
      · rfl
      · split
        · simp [recentVendorFlag]
        · rfl

theorem rule3_no_price (e : DocumentData) (env : DetectEnv) :
    (rule3Duplicate e env).filter (fun f => f.flag_type == "price_inflation") = [] := by
  unfold rule3Duplicate
  split
  · rfl
  · split
    · rfl
    · simp

theorem rule4_no_price (e : DocumentData) (v : VerificationResult) :
    (rule4HighRisk e v).filter (fun f => f.flag_type == "price_inflation") = [] := by
  unfold rule4HighRisk
  split
  · simp [highRiskFlag]
  · rfl

theorem rule2_type (e : DocumentData) (v : VerificationResult) :
    ∀ f ∈ rule2PriceInflation e v, f.flag_type = "price_inflation" := by
  intro f hf
  unfold rule2PriceInflation at hf
  split at hf
  · simp at hf
  · split at hf
    · simp at hf
    · split at hf
      · simp at hf
      · rw [List.mem_filterMap] at hf
        obtain ⟨it, -, hit⟩ := hf
        split at hit
        · obtain rfl := Option.some.inj hit
          rfl
        · simp at hit

theorem rule2_all_price (e : DocumentData) (v : VerificationResult) :
    (rule2PriceInflation e v).filter (fun f => f.flag_type == "price_inflation")
      = rule2PriceInflation e v := by
  rw [List.filter_eq_self]
  intro f hf
  simp [rule2_type e v f hf]

theorem detect_price_filter (e : DocumentData) (v : VerificationResult) (env : DetectEnv) :
    (detect e v env).filter (fun f => f.flag_type == "price_inflation")
      = rule2PriceInflation e v := by
  unfold detect
  simp only [List.filter_append, rule1_no_price, rule3_no_price, rule4_no_price,
    rule2_all_price]
  simp

/-- C2: whenever the verification result carries a (truthy) historical
average price, the detector emits a `price_inflation` flag exactly for the
line items whose unit price exceeds 1.2 times the average, one flag per
qualifying item with no merging; each flag records the exact inflation
percentage `(unit_price − avg) / avg × 100` and its severity is `critical`
above 50, `high` above 30 and `medium` otherwise. -/
theorem C2_price_inflation_exact (e : DocumentData) (v : VerificationResult)
    (env : DetectEnv) (avg : Rat) (it : LineItem)
    (hk : v.historical_avg_price = some avg) (h0 : avg ≠ 0) :
    (detect e v env).filter (fun f => f.flag_type == "price_inflation")
        = (e.line_items.filter
            (fun x => decide (x.unit_price > avg * (12/10)))).map (inflationFlag avg)
      ∧ (inflationFlag avg it).evidence.lookup "inflation_percentage"
          = some (Js.num (((it.unit_price - avg) / avg) * 100))
      ∧ (inflationFlag avg it).severity
          = (if ((it.unit_price - avg) / avg) * 100 > 50 then "critical"
             else if ((it.unit_price - avg) / avg) * 100 > 30 then "high"
             else "medium") := by
  refine ⟨?_, ?_, ?_⟩
  · rw [detect_price_filter, rule2_eq_map e v avg hk h0]
  · simp [inflationFlag, List.lookup]
  · rfl

/-- C2 witness: the Scenario A document against the average 40.00. -/
theorem C2_price_inflation_exact_witness :
    (detect docA verA emptyEnv).filter (fun f => f.flag_type == "price_inflation")
        = (docA.line_items.filter
            (fun x => decide (x.unit_price > 40 * (12/10)))).map (inflationFlag 40)
      ∧ (inflationFlag 40 officeItem).evidence.lookup "inflation_percentage"
          = some (Js.num (((officeItem.unit_price - 40) / 40) * 100))
      ∧ (inflationFlag 40 officeItem).severity
          = (if ((officeItem.unit_price - 40) / 40) * 100 > 50 then "critical"
             else if ((officeItem.unit_price - 40) / 40) * 100 > 30 then "high"
             else "medium") :=
  C2_price_inflation_exact docA verA emptyEnv 40 officeItem rfl (by norm_num)

/-- A one-row ledger whose only expenditure matches the description
`Widgets` but not `Gadget`. -/
def ledgerW : List Expenditure :=
  [{ reference_number := "W-1", transaction_date := 10, amount := 100,
     item_description := "Premium Widgets", quantity := 1, unit_price := 100 }]

/-- A line item whose description matches nothing in `ledgerW`. -/
def gadgetItem : LineItem := { item := "Gadget", quantity := 1, unit_price := 500 }

/-- A line item with ledger history in `ledgerW` and an inflated price. -/
def widgetItem : LineItem := { item := "Widgets", quantity := 1, unit_price := 200 }

/-- A document whose FIRST line item has no ledger history while its second
one does. -/
def docW : DocumentData :=
  { document_type := "invoice"
    vendor_name := "Widget Corp"
    vendor_id := none
    amount := 700
    date := "2024-05-01"
    line_items := [gadgetItem, widgetItem]
    approval_authority := none
    reference_number := "INV-W-1" }

/-- The verification result the pipeline produces for `docW` over `ledgerW`:
its pricing field is whatever the verifier computes. -/
def verW : VerificationResult :=
  { vendor_exists := true
    vendor_registration_date := none
    historical_avg_price := verifierHistoricalAvg ledgerW 0 docW.line_items
    similar_transactions := []
    vendor_risk_score := 0 }

theorem rule2_none (e : DocumentData) (v : VerificationResult)
    (h : v.historical_avg_price = none) : rule2PriceInflation e v = [] := by
  unfold rule2PriceInflation
  rw [h]

theorem verifierHistoricalAvg_ne_zero (ledger : List Expenditure) (cutoff : Int)
    (items : List LineItem) (a : Rat)
    (h : verifierHistoricalAvg ledger cutoff items = some a) : a ≠ 0 := by
  unfold verifierHistoricalAvg at h
  split at h
  · simp at h
  · split at h
    · simp at h
    · split at h
      · simp at h
      · split at h
        · simp at h
        · obtain rfl := Option.some.inj h
          assumption

/-- C4 counterexample: over `ledgerW`, the second line item of `docW` has a
known per-item historical average (100) and an inflated unit price (200 >
120), yet because the verifier consults only the FIRST line item — whose
description matches no record — the pricing field comes out absent and the
detector emits no price-inflation flag at all; swapping the item order
changes the computed average, showing the statistics are not computed
separately per item. -/
theorem C4_counterexample :
    (get_historical_avg_price ledgerW 0 widgetItem.item).avg_price = some 100
      ∧ widgetItem.unit_price > 100 * (12/10)
      ∧ (get_historical_avg_price ledgerW 0 gadgetItem.item).avg_price = none
      ∧ verifierHistoricalAvg ledgerW 0 docW.line_items = none
      ∧ verifierHistoricalAvg ledgerW 0 [widgetItem, gadgetItem] = some 100
      ∧ (detect docW verW emptyEnv).filter
          (fun f => f.flag_type == "price_inflation") = [] := by
  with_unfolding_all decide

/-- C4 amended: the verification stage computes historical pricing
statistics only from the description of the first line item; when that
query yields no usable average the price-inflation check is skipped for
every item; when it yields one, that single average is applied to every
line item. -/
theorem C4_first_item_pricing (ledger : List Expenditure) (cutoff : Int)
    (e : DocumentData) (v : VerificationResult) (env : DetectEnv)
    (hv : v.historical_avg_price = verifierHistoricalAvg ledger cutoff e.line_items) :
    (∀ first : LineItem, ∀ rest rest' : List LineItem,
        verifierHistoricalAvg ledger cutoff (first :: rest)
          = verifierHistoricalAvg ledger cutoff (first :: rest'))
      ∧ (verifierHistoricalAvg ledger cutoff e.line_items = none →
          (detect e v env).filter (fun f => f.flag_type == "price_inflation") = [])
      ∧ (∀ a : Rat, verifierHistoricalAvg ledger cutoff e.line_items = some a →
          (detect e v env).filter (fun f => f.flag_type == "price_inflation")
            = (e.line_items.filter
                (fun x => decide (x.unit_price > a * (12/10)))).map (inflationFlag a)) := by
  refine ⟨?_, ?_, ?_⟩
  · intro first rest rest'
    rfl
  · intro h
    rw [detect_price_filter, rule2_none e v (hv.trans h)]
  · intro a ha
    rw [detect_price_filter,
      rule2_eq_map e v a (hv.trans ha) (verifierHistoricalAvg_ne_zero _ _ _ _ ha)]

/-- C4 witness: the amended statement at the concrete `docW` over
`ledgerW`. -/
theorem C4_first_item_pricing_witness :
    (∀ first : LineItem, ∀ rest rest' : List LineItem,
        verifierHistoricalAvg ledgerW 0 (first :: rest)
          = verifierHistoricalAvg ledgerW 0 (first :: rest'))
      ∧ (verifierHistoricalAvg ledgerW 0 docW.line_items = none →
          (detect docW verW emptyEnv).filter
            (fun f => f.flag_type == "price_inflation") = [])
      ∧ (∀ a : Rat, verifierHistoricalAvg ledgerW 0 docW.line_items = some a →
          (detect docW verW emptyEnv).filter
            (fun f => f.flag_type == "price_inflation")
            = (docW.line_items.filter
                (fun x => decide (x.unit_price > a * (12/10)))).map (inflationFlag a)) :=
  C4_first_item_pricing ledgerW 0 docW verW emptyEnv rfl

theorem filter_type_eq_nil (t : String) (l : List AnomalyFlag)
    (h : ∀ f ∈ l, f.flag_type ≠ t) :
    l.filter (fun f => f.flag_type == t) = [] := by
  rw [List.filter_eq_nil_iff]
  intro f hf
  simp [h f hf]

theorem detect_ghost_filter (e : DocumentData) (v : VerificationResult)
    (env : DetectEnv) (h : v.vendor_exists = false) :
    (detect e v env).filter (fun f => f.flag_type == "ghost_vendor")
      = [ghostVendorFlag e] := by
  unfold detect
  rw [List.filter_append, List.filter_append, List.filter_append]
  have h1 : (rule1GhostVendor e v env).filter (fun f => f.flag_type == "ghost_vendor")
      = [ghostVendorFlag e] := by
    unfold rule1GhostVendor
    rw [h]
    simp [ghostVendorFlag]
  have h2 := filter_type_eq_nil "ghost_vendor" (rule2PriceInflation e v)
    (fun f hf => by rw [rule2_type e v f hf]; simp)
  have h3 := filter_type_eq_nil "ghost_vendor" (rule3Duplicate e env)
    (fun f hf => by rw [rule3_flag_type e env f hf]; simp)
  have h4 := filter_type_eq_nil "ghost_vendor" (rule4HighRisk e v)
    (fun f hf => by rw [rule4_flag_type e v f hf]; simp)
  rw [h1, h2, h3, h4]
  rfl

theorem detect_highrisk_filter (e : DocumentData) (v : VerificationResult)
    (env : DetectEnv) (h : v.vendor_risk_score > 7/10) :
    (detect e v env).filter (fun f => f.flag_type == "high_risk_vendor")
      = [highRiskFlag e v] := by
  unfold detect
  rw [List.filter_append, List.filter_append, List.filter_append]
  have h1 := filter_type_eq_nil "high_risk_vendor" (rule1GhostVendor e v env)
    (fun f hf => by rw [rule1_flag_type e v env f hf]; simp)
  have h2 := filter_type_eq_nil "high_risk_vendor" (rule2PriceInflation e v)
    (fun f hf => by rw [rule2_type e v f hf]; simp)
  have h3 := filter_type_eq_nil "high_risk_vendor" (rule3Duplicate e env)
    (fun f hf => by rw [rule3_flag_type e env f hf]; simp)
  have h4 : (rule4HighRisk e v).filter (fun f => f.flag_type == "high_risk_vendor")
      = [highRiskFlag e v] := by
    unfold rule4HighRisk
    rw [if_pos h]
    simp [highRiskFlag]
  rw [h1, h2, h3, h4]
  rfl

/-- Verification result with vendor risk score 0.8 and no other findings. -/
def verRisk08 : VerificationResult :=
  { vendor_exists := true
    vendor_registration_date := none
    historical_avg_price := none
    similar_transactions := []
    vendor_risk_score := 8/10 }

/-- C5: a vendor risk score above 0.7 always yields exactly one
`high_risk_vendor` flag of severity `high`, and makes the risk scorer
multiply the base score by 1.5 before clamping; in particular a single
`high` anomaly against a 0.8-risk vendor scores 25 × 1.5 = 37.5, at risk
level medium. -/
theorem C5_high_risk_amplification (e : DocumentData) (v : VerificationResult)
    (env : DetectEnv) (ans : List AnomalyFlag) (fl : AnomalyFlag)
    (h : v.vendor_risk_score > 7/10) (hfl : fl.severity = "high") :
    (detect e v env).filter (fun f => f.flag_type == "high_risk_vendor")
        = [highRiskFlag e v]
      ∧ (highRiskFlag e v).severity = "high"
      ∧ fraudRiskScore ans (some v) = min (baseScore ans * (3/2)) 100
      ∧ fraudRiskScore [fl] (some verRisk08) = 75/2
      ∧ calculate_risk_level (fraudRiskScore [fl] (some verRisk08)) = "MEDIUM" := by
  have hb : baseScore [fl] = 25 := by
    simp [baseScore, hfl, severityWeight]
  have hs : fraudRiskScore [fl] (some verRisk08) = 75/2 := by
    unfold fraudRiskScore
    dsimp only
    rw [hb, if_pos (by norm_num [verRisk08] : verRisk08.vendor_risk_score > 7/10),
      min_eq_left (by norm_num)]
    norm_num
  refine ⟨detect_highrisk_filter e v env h, rfl, ?_, hs, ?_⟩
  · unfold fraudRiskScore
    dsimp only
    rw [if_pos h]
  · rw [hs]
    norm_num [calculate_risk_level]

/-- C5 witness: the Scenario C configuration made concrete. -/
theorem C5_high_risk_amplification_witness :
    (detect docA verRisk08 emptyEnv).filter
        (fun f => f.flag_type == "high_risk_vendor") = [highRiskFlag docA verRisk08]
      ∧ (highRiskFlag docA verRisk08).severity = "high"
      ∧ fraudRiskScore [] (some verRisk08) = min (baseScore [] * (3/2)) 100
      ∧ fraudRiskScore [highRiskFlag docA verRisk08] (some verRisk08) = 75/2
      ∧ calculate_risk_level
          (fraudRiskScore [highRiskFlag docA verRisk08] (some verRisk08)) = "MEDIUM" :=
  C5_high_risk_amplification docA verRisk08 emptyEnv [] (highRiskFlag docA verRisk08)
    (by norm_num [verRisk08]) rfl

/-- C6: an input whose vendor is absent from the ledger always yields
exactly one `ghost_vendor` flag, of severity `critical`, whose evidence
carries the vendor name, the vendor id and the amount; when that flag is
the only anomaly the fraud risk score is exactly 40 and the risk level is
high. -/
theorem C6_ghost_vendor_flag (e : DocumentData) (v : VerificationResult)
    (env : DetectEnv) (h : v.vendor_exists = false) :
    (detect e v env).filter (fun f => f.flag_type == "ghost_vendor")
        = [ghostVendorFlag e]
      ∧ (ghostVendorFlag e).severity = "critical"
      ∧ (ghostVendorFlag e).evidence.lookup "vendor_name" = some (Js.str e.vendor_name)
      ∧ (ghostVendorFlag e).evidence.lookup "vendor_id"
          = some (match e.vendor_id with | some i => Js.str i | none => Js.null)
      ∧ (ghostVendorFlag e).evidence.lookup "amount" = some (Js.num e.amount)
      ∧ (detect e v env = [ghostVendorFlag e] →
          fraudRiskScore (detect e v env) (some v) = 40
            ∧ calculate_risk_level (fraudRiskScore (detect e v env) (some v))
                = "HIGH") := by
  refine ⟨detect_ghost_filter e v env h, rfl, ?_, ?_, ?_, ?_⟩
  · simp [ghostVendorFlag, List.lookup]
  · simp [ghostVendorFlag, List.lookup]
  · simp [ghostVendorFlag, List.lookup]
  · intro hd
    have hrisk : ¬ v.vendor_risk_score > 7/10 := by
      intro hr
      have hmem : highRiskFlag e v ∈ detect e v env := by
        unfold detect rule4HighRisk
        rw [if_pos hr]
        simp
      rw [hd] at hmem
      simp only [List.mem_singleton] at hmem
      have := congrArg AnomalyFlag.flag_type hmem
      simp [highRiskFlag, ghostVendorFlag] at this
    have hs : fraudRiskScore (detect e v env) (some v) = 40 := by
      rw [hd]
      unfold fraudRiskScore
      dsimp only
      rw [if_neg hrisk]
      have hb : baseScore [ghostVendorFlag e] = 40 := by
        simp [baseScore, ghostVendorFlag, severityWeight]
      rw [hb, min_eq_left (by norm_num)]
    exact ⟨hs, by rw [hs]; norm_num [calculate_risk_level]⟩

/-- C6 witness: the Scenario B configuration (unknown vendor, no other
anomalies) made concrete. -/
theorem C6_ghost_vendor_flag_witness :
    (detect docA verGhost emptyEnv).filter (fun f => f.flag_type == "ghost_vendor")
        = [ghostVendorFlag docA]
      ∧ (ghostVendorFlag docA).severity = "critical"
      ∧ (ghostVendorFlag docA).evidence.lookup "vendor_name"
          = some (Js.str docA.vendor_name)
      ∧ (ghostVendorFlag docA).evidence.lookup "vendor_id"
          = some (match docA.vendor_id with | some i => Js.str i | none => Js.null)
      ∧ (ghostVendorFlag docA).evidence.lookup "amount" = some (Js.num docA.amount)
      ∧ (detect docA verGhost emptyEnv = [ghostVendorFlag docA] →
          fraudRiskScore (detect docA verGhost emptyEnv) (some verGhost) = 40
            ∧ calculate_risk_level
                (fraudRiskScore (detect docA verGhost emptyEnv) (some verGhost))
                = "HIGH") :=
  C6_ghost_vendor_flag docA verGhost emptyEnv rfl

theorem mergeUpdate_errors (s upd : AuditState) :
    (mergeUpdate s upd).errors = s.errors ++ upd.errors := rfl

theorem mergeUpdate_anomalies (s upd : AuditState) :
    (mergeUpdate s upd).anomalies = s.anomalies ++ upd.anomalies := rfl

theorem reporterNode_current_node (r : Except String (List String))
    (p : Except String Unit) (s : AuditState) :
    (reporterNode r p s).current_node = "reporter" := by
  unfold reporterNode mergeUpdate
  split
  · rfl
  · split
    · split
      · rfl
      · rfl
    · rfl

/-- A state mid-run with both data fields populated and empty lists. -/
def sampleState : AuditState :=
  { document_path := "uploads/doc.png"
    thread_id := "t-1"
    extracted_data := some docA
    extraction_reasoning := "r1"
    verification_result := some verA
    verification_reasoning := "r2"
    anomalies := []
    anomaly_reasoning := ""
    fraud_risk_score := 0
    recommendations := []
    current_node := "verifier"
    errors := [] }

/-- A run in which every external operation raises. -/
def sampleOracles : Oracles :=
  { extraction := .error "boom1"
    verification := .error "boom2"
    detection := .error "boom3"
    recommendations := .error "boom4"
    persistence := .ok () }

/-- C7: a stage whose operation raises appends one descriptive error string
to the error list, leaves its own output field unset, and still advances
the stage marker; the linear graph runs all four stages for every oracle
outcome, so the terminal state is reached and `get_audit` reports status
`completed` even when every stage failed. -/
theorem C7_fail_soft_continue (s : AuditState) (m : String) (d : DocumentData)
    (v : VerificationResult) (osave : Except String Unit) (o : Oracles)
    (hd : s.extracted_data = some d) (hv : s.verification_result = some v)
    (ha : s.anomalies = []) :
    (extractorNode (.error m) s).errors = s.errors ++ ["Extraction error: " ++ m]
      ∧ (extractorNode (.error m) s).extracted_data = s.extracted_data
      ∧ (extractorNode (.error m) s).current_node = "extractor"
      ∧ (verifierNode (.error m) s).errors
          = s.errors ++ ["Verification error: " ++ m]
      ∧ (verifierNode (.error m) s).verification_result = s.verification_result
      ∧ (verifierNode (.error m) s).current_node = "verifier"
      ∧ (anomalyDetectorNode (.error m) s).errors
          = s.errors ++ ["Anomaly detection error: " ++ m]
      ∧ (anomalyDetectorNode (.error m) s).anomalies = []
      ∧ (anomalyDetectorNode (.error m) s).anomaly_reasoning = s.anomaly_reasoning
      ∧ (anomalyDetectorNode (.error m) s).current_node = "anomaly_detector"
      ∧ (reporterNode (.error m) osave s).errors
          = s.errors ++ ["Report generation error: " ++ m]
      ∧ (reporterNode (.error m) osave s).fraud_risk_score = s.fraud_risk_score
      ∧ (reporterNode (.error m) osave s).recommendations = s.recommendations
      ∧ (reporterNode (.error m) osave s).current_node = "reporter"
      ∧ (pipeline o s).current_node = "reporter"
      ∧ auditStatus (pipeline o s) = "completed" := by
  refine ⟨rfl, rfl, rfl, ?_, ?_, ?_, ?_, ?_, ?_, ?_, rfl, rfl, rfl, rfl, ?_, ?_⟩
  · simp [verifierNode, mergeUpdate, hd]
  · simp [verifierNode, mergeUpdate, hd]
  · simp [verifierNode, mergeUpdate, hd]
  · simp [anomalyDetectorNode, mergeUpdate, hd, hv]
  · simp [anomalyDetectorNode, mergeUpdate, hd, hv, ha]
  · simp [anomalyDetectorNode, mergeUpdate, hd, hv]
  · simp [anomalyDetectorNode, mergeUpdate, hd, hv]
  · exact reporterNode_current_node _ _ _
  · unfold auditStatus pipeline
    rw [if_pos (reporterNode_current_node _ _ _)]

/-- C7 witness: the all-failing run on a concrete mid-run state. -/
theorem C7_fail_soft_continue_witness :
    (extractorNode (.error "boom") sampleState).errors
        = sampleState.errors ++ ["Extraction error: " ++ "boom"]
      ∧ (extractorNode (.error "boom") sampleState).extracted_data
          = sampleState.extracted_data
      ∧ (extractorNode (.error "boom") sampleState).current_node = "extractor"
      ∧ (verifierNode (.error "boom") sampleState).errors
          = sampleState.errors ++ ["Verification error: " ++ "boom"]
      ∧ (verifierNode (.error "boom") sampleState).verification_result
          = sampleState.verification_result
      ∧ (verifierNode (.error "boom") sampleState).current_node = "verifier"
      ∧ (anomalyDetectorNode (.error "boom") sampleState).errors
          = sampleState.errors ++ ["Anomaly detection error: " ++ "boom"]
      ∧ (anomalyDetectorNode (.error "boom") sampleState).anomalies = []
      ∧ (anomalyDetectorNode (.error "boom") sampleState).anomaly_reasoning
          = sampleState.anomaly_reasoning
      ∧ (anomalyDetectorNode (.error "boom") sampleState).current_node
          = "anomaly_detector"
      ∧ (reporterNode (.error "boom") (.ok ()) sampleState).errors
          = sampleState.errors ++ ["Report generation error: " ++ "boom"]
      ∧ (reporterNode (.error "boom") (.ok ()) sampleState).fraud_risk_score
          = sampleState.fraud_risk_score
      ∧ (reporterNode (.error "boom") (.ok ()) sampleState).recommendations
          = sampleState.recommendations
      ∧ (reporterNode (.error "boom") (.ok ()) sampleState).current_node = "reporter"
      ∧ (pipeline sampleOracles sampleState).current_node = "reporter"
      ∧ auditStatus (pipeline sampleOracles sampleState) = "completed" :=
  C7_fail_soft_continue sampleState "boom" docA verA (.ok ()) sampleOracles
    rfl rfl rfl

/-- C8: for every stage and every oracle outcome, the error list and the
anomaly list only ever grow by a suffix, and the fields populated by
earlier stages are passed through unchanged — once populated, never
cleared. -/
theorem C8_state_append_only (s : AuditState)
    (o1 : Except String (DocumentData × String))
    (o2 : Except String (VerificationResult × String))
    (o3 : Except String (DetectEnv × String))
    (o4 : Except String (List String)) (o5 : Except String Unit) :
    (∃ t, (extractorNode o1 s).errors = s.errors ++ t)
      ∧ (∃ t, (extractorNode o1 s).anomalies = s.anomalies ++ t)
      ∧ (∃ t, (verifierNode o2 s).errors = s.errors ++ t)
      ∧ (∃ t, (verifierNode o2 s).anomalies = s.anomalies ++ t)
      ∧ (∃ t, (anomalyDetectorNode o3 s).errors = s.errors ++ t)
      ∧ (∃ t, (anomalyDetectorNode o3 s).anomalies = s.anomalies ++ t)
      ∧ (∃ t, (reporterNode o4 o5 s).errors = s.errors ++ t)
      ∧ (∃ t, (reporterNode o4 o5 s).anomalies = s.anomalies ++ t)
      ∧ (verifierNode o2 s).extracted_data = s.extracted_data
      ∧ (verifierNode o2 s).extraction_reasoning = s.extraction_reasoning
      ∧ (anomalyDetectorNode o3 s).extracted_data = s.extracted_data
      ∧ (anomalyDetectorNode o3 s).verification_result = s.verification_result
      ∧ (reporterNode o4 o5 s).extracted_data = s.extracted_data
      ∧ (reporterNode o4 o5 s).verification_result = s.verification_result
      ∧ (reporterNode o4 o5 s).anomaly_reasoning = s.anomaly_reasoning := by
  refine ⟨⟨_, rfl⟩, ⟨_, rfl⟩, ⟨_, rfl⟩, ⟨_, rfl⟩, ⟨_, rfl⟩, ⟨_, rfl⟩, ⟨_, rfl⟩,
    ⟨_, rfl⟩, ?_, ?_, ?_, ?_, ?_, ?_, ?_⟩
  all_goals
    first
    | (unfold verifierNode mergeUpdate
       split
       · rfl
       · split <;> rfl)
    | (unfold anomalyDetectorNode mergeUpdate
       split
       · split <;> rfl
       · rfl)
    | (unfold reporterNode mergeUpdate
       split
       · rfl
       · split
         · split <;> rfl
         · rfl)

/-- C9 counterexample: when the live analyzer cannot parse the extraction
output, it substitutes the placeholder `create_fallback_data`, runs the
later anomaly stage on that placeholder, and returns status `completed`;
the returned record (which has no error field at all) is identical to the
one for an extraction that genuinely produced the placeholder — the
substitution is recorded nowhere. -/
theorem C9_counterexample :
    (process_image_result none "t-live").extracted_data = create_fallback_data
      ∧ (process_image_result none "t-live").status = "completed"
      ∧ process_image_result none "t-live"
          = process_image_result (some create_fallback_data) "t-live"
      ∧ create_fallback_data.vendor_name = some "Extracted Vendor"
      ∧ (process_image_result none "t-live").anomalies
          = [{ flag_type := "missing_vendor_id", severity := "HIGH",
               description := "Vendor ID not found in document",
               evidence := [("vendor_name", Js.str "Extracted Vendor")] }]
      ∧ (process_image_result none "t-live").fraud_risk_score = 30 := by
  refine ⟨rfl, rfl, rfl, rfl, ?_, ?_⟩ <;> with_unfolding_all decide

/-- C9 amended: in the graph pipeline the extractor classifies malformed
output as an extraction error appended to the error list and injects no
placeholder; the live image analyzer, by contrast, silently substitutes
`create_fallback_data` for unparseable output and completes with no error
recorded in its returned record. -/
theorem C9_extraction_error_vs_fallback (s : AuditState) (m t : String) :
    (extractorNode (.error m) s).errors = s.errors ++ ["Extraction error: " ++ m]
      ∧ (extractorNode (.error m) s).extracted_data = s.extracted_data
      ∧ (process_image_result none t).extracted_data = create_fallback_data
      ∧ (process_image_result none t).status = "completed"
      ∧ process_image_result none t = process_image_result (some create_fallback_data) t :=
  ⟨rfl, rfl, rfl, rfl, rfl⟩

end SpendShield

